import Mathlib

/-!
Shallow embedding of the kavenegar-python client (`kavenegar.py`) and proofs
about its request/response translation layer.

Modelling conventions:
* Python/JSON values are modelled by the inductive `JVal`; Python `None` and
  JSON `null` (which Python's `json` module conflates) are both `JVal.null`.
  JSON floats are outside the modelled domain (no claim mentions them).
* Python `dict`s are association lists with distinct keys; `dict.get` is
  `pyGet` (first match).
* Text handled by `str.replace` and slicing is modelled as `List Char`.
* External collaborators (the `requests` session, proxies, and the stdlib
  `json` parser) are modelled at their boundary: the network outcome and the
  JSON parse outcome are inputs to the embedded `_post` pipeline, and
  `json.dumps` is a function parameter of the embedded `_jsonify_params`.
-/

namespace Kavenegar

/-- JSON-like value (decoded Python object). `null` stands for Python `None`,
which the `json` module uses for JSON `null` and which `dict.get` returns for
an absent key with no default. -/
inductive JVal where
  | null
  | bool (b : Bool)
  | num (n : Int)
  | str (s : String)
  | arr (elems : List JVal)
  | obj (fields : List (String × JVal))

/-- A decoded Python dict with string keys: an association list (keys distinct,
first match wins, insertion order preserved). -/
abbrev JObj := List (String × JVal)

/-- Python `d.get(k)` (default `None` handled by callers via `Option.getD`). -/
def pyGet (d : JObj) (k : String) : Option JVal :=
  match d with
  | [] => none
  | (k2, v) :: rest => if k2 = k then some v else pyGet rest k

/-- The error raised for a non-success envelope: `APIException(status, message)`
(src/kavenegar.py line 132). It stores exactly the status value and the message
text; and the transport-level `HTTPException(msg)` (lines 124 and 136), which
stores a text. -/
inductive PostError where
  | api (status : JVal) (message : JVal)
  | http (msg : List Char)

/-- `payload.get("return", {})` (line 127): the `return` block of the envelope,
defaulting to an empty dict when absent. A present non-dict `return` value
makes Python crash on the subsequent `.get`; such payloads are outside the
modelled domain, guarded by `returnFieldOk`. -/
def returnBlock (payload : JObj) : JObj :=
  match pyGet payload "return" with
  | some (.obj m) => m
  | _ => []

/-- Domain guard: the `return` field, when present, is a dict (as the envelope
contract requires); otherwise Python raises an `AttributeError` that the source
does not handle and the model does not represent. -/
def returnFieldOk (payload : JObj) : Bool :=
  match pyGet payload "return" with
  | some (.obj _) => true
  | none => true
  | some _ => false

/-- `meta.get("status")` (line 128): `None` when absent. -/
def envStatus (payload : JObj) : JVal :=
  (pyGet (returnBlock payload) "status").getD .null

/-- `meta.get("message", "")` (line 129). -/
def envMessage (payload : JObj) : JVal :=
  (pyGet (returnBlock payload) "message").getD (.str "")

/-- `payload.get("entries")` (line 131): `None` when absent. -/
def envEntries (payload : JObj) : JVal :=
  (pyGet payload "entries").getD .null

/-- Python `status == 200` (line 130): true exactly for the integer `200`
(`True == 200` is false since Python booleans compare as 0/1; a string never
equals an int). -/
def statusEq200 : JVal → Bool
  | .num n => n == 200
  | _ => false

/-- Envelope decoding, lines 126-132 of `_post`: read `return.status` and
`return.message`, return `entries` on status 200, else raise
`APIException(status, message)`. -/
def decodeEnvelope (payload : JObj) : Except PostError JVal :=
  if statusEq200 (envStatus payload) then .ok (envEntries payload)
  else .error (.api (envStatus payload) (envMessage payload))

/-! ## Credential masking and client construction -/

/-- `DEFAULT_TIMEOUT: int = 10` (line 30). -/
def DEFAULT_TIMEOUT : Int := 10

/-- The masking expression duplicated at lines 79 (`__init__`) and 150
(`rotate_api_key`):
`f"{key[:2]}********{key[-2:]}" if len(key) >= 4 else "********"`.
Python `key[-2:]` is `drop (length - 2)`. -/
def maskKey (key : List Char) : List Char :=
  if 4 ≤ key.length then
    key.take 2 ++ "********".toList ++ key.drop (key.length - 2)
  else "********".toList

/-- Client state relevant to the claims: `self.apikey`, `self.apikey_mask`,
`self.timeout` (lines 78-80). The proxy mapping and the `requests.Session`
handle are external collaborators and are not modelled. -/
structure Client where
  apikey : List Char
  apikey_mask : List Char
  timeout : Int

/-- Python `timeout or DEFAULT_TIMEOUT` (line 80) for an `Optional[int]`
argument: `None` and `0` (the falsy ints) are replaced by the default. -/
def pyOrDefaultTimeout (t : Option Int) : Int :=
  match t with
  | none => DEFAULT_TIMEOUT
  | some v => if v = 0 then DEFAULT_TIMEOUT else v

/-- `KavenegarAPI.__init__` (lines 70-82), restricted to the modelled fields. -/
def clientInit (apikey : List Char) (timeout : Option Int) : Client :=
  { apikey := apikey
    apikey_mask := maskKey apikey
    timeout := pyOrDefaultTimeout timeout }

/-- `rotate_api_key` (lines 148-150): replaces the key and recomputes the mask. -/
def rotate_api_key (c : Client) (newKey : List Char) : Client :=
  { c with apikey := newKey, apikey_mask := maskKey newKey }

/-! ## Python `str.replace` on character lists -/

/-- Does `pat` occur as a contiguous substring of `s` (Python `pat in s`)? -/
def occursIn (pat : List Char) : List Char → Bool
  | [] => pat.isEmpty
  | c :: rest => pat.isPrefixOf (c :: rest) || occursIn pat rest

/-- Left-to-right, non-overlapping replacement scan for a nonempty pattern;
fuel bounds the recursion (any fuel at least `s.length` is exact). -/
def pyReplaceGo (pat rep : List Char) : Nat → List Char → List Char
  | _, [] => []
  | 0, s => s
  | fuel + 1, c :: rest =>
    if pat.isPrefixOf (c :: rest) then
      rep ++ pyReplaceGo pat rep fuel ((c :: rest).drop pat.length)
    else c :: pyReplaceGo pat rep fuel rest

/-- Python `s.replace(pat, rep)`: every non-overlapping occurrence of `pat`
in `s`, scanned left to right, is replaced by `rep`; an empty pattern matches
before every character and at the end. -/
def pyReplace (s pat rep : List Char) : List Char :=
  match pat with
  | [] => rep ++ (s.map (fun c => c :: rep)).flatten
  | _ :: _ => pyReplaceGo pat rep s.length s

/-! ## The `_post` pipeline -/

/-- Outcome of the network/parse stage of `_post` as seen by its `try` blocks:
either the session raised a `requests.exceptions.RequestException` with text
`errText`, or a response body arrived and `json.loads` either failed with
error text (the inner `except`, line 123) or produced a decoded envelope
object. A top-level non-object JSON body makes Python crash on
`payload.get` and is outside the modelled domain. -/
inductive NetOutcome where
  | netError (errText : List Char)
  | response (parsed : Except (List Char) JObj)

/-- `_post` (lines 109-136) after the request is issued: a network-layer
exception is redacted with `str(e).replace(self.apikey, self.apikey_mask)`
and re-raised as `HTTPException` (lines 133-136); a JSON decode failure is
re-raised as `HTTPException(str(e))` (line 124); a decoded envelope goes
through `decodeEnvelope`. -/
def postOutcome (c : Client) (outcome : NetOutcome) : Except PostError JVal :=
  match outcome with
  | .netError e => .error (.http (pyReplace e c.apikey c.apikey_mask))
  | .response (.error perr) => .error (.http perr)
  | .response (.ok payload) => decodeEnvelope payload

/-! ## Parameter normalization (`_jsonify_params`, lines 95-107) -/

/-- Is the value a structured container, i.e. does
`isinstance(value, (dict, list, tuple))` hold (line 103)? Python tuples and
lists both decode to `JVal.arr`. -/
def isStructured : JVal → Bool
  | .arr _ => true
  | .obj _ => true
  | _ => false

/-- `_jsonify_params` (lines 95-107): structured values are replaced by their
`json.dumps` text, scalars pass through; one output entry per input entry.
`dumps` abstracts the stdlib `json.dumps` (an external collaborator). -/
def jsonify_params (dumps : JVal → String) (params : JObj) : JObj :=
  params.map (fun kv =>
    if isStructured kv.2 then (kv.1, .str (dumps kv.2)) else kv)

/-- Hex digit for `\uXXXX` escapes (lowercase, as Python emits). -/
def hexDigit (n : Nat) : Char :=
  if n < 10 then Char.ofNat (48 + n) else Char.ofNat (87 + n)

/-- Four-digit lowercase hex of a code point below 0x10000. -/
def hex4 (n : Nat) : String :=
  String.mk [hexDigit (n / 4096 % 16), hexDigit (n / 256 % 16),
             hexDigit (n / 16 % 16), hexDigit (n % 16)]

/-- One character of a JSON string literal as Python's `json.dumps` emits it
(default options). Astral code points (above 0xFFFF, emitted as surrogate
pairs by Python) are outside the modelled domain; witnesses use ASCII. -/
def escapeJsonChar (c : Char) : String :=
  if c = '"' then "\\\""
  else if c = '\\' then "\\\\"
  else if c = '\n' then "\\n"
  else if c = '\r' then "\\r"
  else if c = '\t' then "\\t"
  else if c = Char.ofNat 8 then "\\b"
  else if c = Char.ofNat 12 then "\\f"
  else if c.toNat < 32 ∨ 126 < c.toNat then "\\u" ++ hex4 c.toNat
  else String.singleton c

/-- JSON string literal, Python `json.dumps` default (`ensure_ascii=True`). -/
def dumpsString (s : String) : String :=
  "\"" ++ String.join (s.toList.map escapeJsonChar) ++ "\""

mutual

/-- Model of the stdlib `json.dumps` with default options on the modelled
value domain: separators `", "` and `": "`, insertion order preserved. Used
to instantiate `jsonify_params` in concrete examples. -/
def pyJsonDumps : JVal → String
  | .null => "null"
  | .bool true => "true"
  | .bool false => "false"
  | .num n => toString n
  | .str s => dumpsString s
  | .arr elems => "[" ++ pyJsonDumpsList elems ++ "]"
  | .obj fields => "\x7b" ++ pyJsonDumpsFields fields ++ "\x7d"

/-- Comma-separated array elements. -/
def pyJsonDumpsList : List JVal → String
  | [] => ""
  | [v] => pyJsonDumps v
  | v :: rest => pyJsonDumps v ++ ", " ++ pyJsonDumpsList rest

/-- Comma-separated `"key": value` members. -/
def pyJsonDumpsFields : List (String × JVal) → String
  | [] => ""
  | [(k, v)] => dumpsString k ++ ": " ++ pyJsonDumps v
  | (k, v) :: rest => dumpsString k ++ ": " ++ pyJsonDumps v ++ ", " ++ pyJsonDumpsFields rest

end

/-! ## Chunked bulk send (`_chunk` lines 299-301, `send_bulk_sms_chunked` 315-327) -/

/-- Recursion worker for `_chunk`; fuel bounds the recursion (any fuel at
least `s.length` is exact when `1 ≤ size`). -/
def chunkAux (size : Nat) : Nat → List α → List (List α)
  | _, [] => []
  | 0, s => [s]
  | fuel + 1, s => s.take size :: chunkAux size fuel (s.drop size)

/-- `_chunk(seq, size)` = `[list(seq[i:i+size]) for i in range(0, len(seq), size)]`
(line 301), for a positive step as `send_bulk_sms_chunked` guarantees. -/
def chunk (seq : List α) (size : Nat) : List (List α) :=
  chunkAux size seq.length seq

/-- `send_bulk_sms_chunked` (lines 315-327): split the receptors with
`_chunk(list(receptors), max(1, int(chunk_size)))` and append one
`send_bulk_sms(group, message, sender=sender)` result per group, in order.
`sendOne` abstracts that per-group call. -/
def send_bulk_sms_chunked {R : Type} (sendOne : List String → R)
    (receptors : List String) (chunk_size : Int) : List R :=
  (chunk receptors (max 1 chunk_size).toNat).map sendOne

/-! ## Health check (`healthcheck`, lines 341-352) -/

/-- Did a call complete without raising? -/
def exceptOk : Except PostError JVal → Bool
  | .ok _ => true
  | .error _ => false

/-- `healthcheck` (lines 341-352): probe `account_info()` and
`sms_latestoutbox()`, catching every exception per probe, and return the dict
`{"account": ok_account, "sms": ok_sms}`. The two probe outcomes are inputs. -/
def healthcheck (accountRes smsRes : Except PostError JVal) : List (String × Bool) :=
  [("account", exceptOk accountRes), ("sms", exceptOk smsRes)]

/-! ## Supporting lemmas -/

/-- With enough fuel and a positive size, the chunks concatenate back to the
input list. -/
theorem chunkAux_flatten {α : Type} (size : Nat) (hsize : 1 ≤ size) :
    ∀ (fuel : Nat) (s : List α), s.length ≤ fuel →
      (chunkAux size fuel s).flatten = s := by
  intro fuel
  induction fuel with
  | zero =>
    intro s hs
    have hnil : s = [] := List.length_eq_zero.mp (Nat.le_zero.mp hs)
    subst hnil
    rfl
  | succ n ih =>
    intro s hs
    cases s with
    | nil => rfl
    | cons c t =>
      show (List.take size (c :: t) :: chunkAux size n (List.drop size (c :: t))).flatten
            = c :: t
      rw [List.flatten_cons, ih (List.drop size (c :: t))
            (by rw [List.length_drop]; simp only [List.length_cons] at hs ⊢; omega),
          List.take_append_drop]

/-- With enough fuel, every chunk has at most `size` elements. -/
theorem chunkAux_length_le {α : Type} (size : Nat) (hsize : 1 ≤ size) :
    ∀ (fuel : Nat) (s : List α), s.length ≤ fuel →
      ∀ g ∈ chunkAux size fuel s, g.length ≤ size := by
  intro fuel
  induction fuel with
  | zero =>
    intro s hs g hg
    have hnil : s = [] := List.length_eq_zero.mp (Nat.le_zero.mp hs)
    subst hnil
    cases hg
  | succ n ih =>
    intro s hs g hg
    cases s with
    | nil => cases hg
    | cons c t =>
      have hg2 : g ∈ List.take size (c :: t) :: chunkAux size n (List.drop size (c :: t)) := hg
      rcases List.mem_cons.mp hg2 with h | h
      · subst h
        exact List.length_take_le size (c :: t)
      · exact ih (List.drop size (c :: t))
          (by rw [List.length_drop]; simp only [List.length_cons] at hs ⊢; omega) g h

/-- The empty pattern occurs in every string. -/
theorem occursIn_nil (s : List Char) : occursIn [] s = true := by
  cases s <;> rfl

/-- The replacement scan leaves a string without any pattern occurrence
unchanged (any fuel). -/
theorem pyReplaceGo_no_occurrence (pat rep : List Char) :
    ∀ (fuel : Nat) (s : List Char), occursIn pat s = false →
      pyReplaceGo pat rep fuel s = s := by
  intro fuel
  induction fuel with
  | zero => intro s _; cases s <;> rfl
  | succ n ih =>
    intro s hocc
    cases s with
    | nil => rfl
    | cons c rest =>
      simp only [occursIn, Bool.or_eq_false_iff] at hocc
      show (if pat.isPrefixOf (c :: rest) then
              rep ++ pyReplaceGo pat rep n ((c :: rest).drop pat.length)
            else c :: pyReplaceGo pat rep n rest) = c :: rest
      rw [if_neg (by simp [hocc.1]), ih rest hocc.2]

/-- Python `s.replace(pat, rep)` is the identity when `pat` does not occur in
`s`. -/
theorem pyReplace_no_occurrence (s pat rep : List Char)
    (h : occursIn pat s = false) : pyReplace s pat rep = s := by
  cases pat with
  | nil => rw [occursIn_nil] at h; cases h
  | cons p ps =>
    show pyReplaceGo (p :: ps) rep s.length s = s
    exact pyReplaceGo_no_occurrence (p :: ps) rep s.length s h

/-! ## Claim theorems -/

/-- C1 (amended): for every decoded envelope (with a well-formed `return`
field) whose `return.status` is not the success sentinel 200, including when
the status is absent, the decoder raises `APIException` carrying the status
value and the message text from the envelope — but not the full decoded
envelope payload. -/
theorem decode_failure_raises_api_error (payload : JObj)
    ( _hwf : returnFieldOk payload = true)
    (hst : statusEq200 (envStatus payload) = false) :
    decodeEnvelope payload
      = .error (.api (envStatus payload) (envMessage payload)) := by
  unfold decodeEnvelope
  rw [if_neg (by simp [hst])]

/-- Witness for `decode_failure_raises_api_error`: a status-412 envelope and
an envelope with no `return` block at all. -/
theorem decode_failure_raises_api_error_witness :
    decodeEnvelope
        [("return", .obj [("status", .num 412), ("message", .str "bad receptor")]),
         ("entries", .null)]
      = .error (.api (.num 412) (.str "bad receptor"))
    ∧ decodeEnvelope [("entries", .num 5)] = .error (.api .null (.str "")) :=
  ⟨decode_failure_raises_api_error _ rfl rfl,
   decode_failure_raises_api_error _ rfl rfl⟩

/-- C1 counterexample: two distinct decoded envelopes (differing in their
`entries` payload) are mapped to the very same error value, so the raised
API-level error cannot carry the full decoded envelope payload — no recovery
function can read the envelope back off the error. -/
theorem decode_failure_error_omits_envelope :
    decodeEnvelope
        [("return", .obj [("status", .num 412), ("message", .str "bad receptor")]),
         ("entries", .num 1)]
      = decodeEnvelope
        [("return", .obj [("status", .num 412), ("message", .str "bad receptor")]),
         ("entries", .num 2)]
    ∧ ([("return", JVal.obj [("status", JVal.num 412), ("message", JVal.str "bad receptor")]),
        ("entries", JVal.num 1)] : JObj)
      ≠ [("return", JVal.obj [("status", JVal.num 412), ("message", JVal.str "bad receptor")]),
         ("entries", JVal.num 2)]
    ∧ ¬ ∃ recover : PostError → JObj,
        ∀ (p : JObj) (e : PostError), decodeEnvelope p = .error e → recover e = p := by
  have hne : ([("return", JVal.obj [("status", JVal.num 412), ("message", JVal.str "bad receptor")]),
        ("entries", JVal.num 1)] : JObj)
      ≠ [("return", JVal.obj [("status", JVal.num 412), ("message", JVal.str "bad receptor")]),
         ("entries", JVal.num 2)] := by
    intro h
    have h2 : JVal.num 1 = JVal.num 2 := congrArg envEntries h
    injection h2 with h3
    exact absurd h3 (by decide)
  refine ⟨rfl, hne, ?_⟩
  rintro ⟨recover, hrec⟩
  have h1 := hrec
    [("return", JVal.obj [("status", JVal.num 412), ("message", JVal.str "bad receptor")]),
     ("entries", JVal.num 1)]
    (.api (.num 412) (.str "bad receptor")) rfl
  have h2 := hrec
    [("return", JVal.obj [("status", JVal.num 412), ("message", JVal.str "bad receptor")]),
     ("entries", JVal.num 2)]
    (.api (.num 412) (.str "bad receptor")) rfl
  exact hne (h1 ▸ h2 ▸ rfl)

/-- C2 (amended): the transport error surfaced for a network-layer exception
has as its message the underlying exception text with every non-overlapping
occurrence of the raw credential (scanned left to right) replaced by the
masked credential; in particular an exception text free of the credential is
surfaced unchanged. (Replacements can recombine into new occurrences of the
credential, so the raw credential is not always absent from the result; see
`transport_error_can_leak_credential`.) -/
theorem transport_error_redacts_credential (key errText : List Char) (t : Option Int) :
    postOutcome (clientInit key t) (.netError errText)
      = .error (.http (pyReplace errText key (maskKey key)))
    ∧ (occursIn key errText = false →
        postOutcome (clientInit key t) (.netError errText) = .error (.http errText)) := by
  refine ⟨rfl, fun h => ?_⟩
  show Except.error (PostError.http (pyReplace errText key (maskKey key)))
        = .error (.http errText)
  rw [pyReplace_no_occurrence errText key (maskKey key) h]

/-- Witness for `transport_error_redacts_credential`: a network error text
that does not mention the credential is surfaced verbatim. -/
theorem transport_error_redacts_credential_witness :
    occursIn "SECRET99".toList "connection timed out".toList = false
    ∧ postOutcome (clientInit "SECRET99".toList none)
        (.netError "connection timed out".toList)
      = .error (.http "connection timed out".toList) :=
  ⟨by decide,
   (transport_error_redacts_credential "SECRET99".toList
      "connection timed out".toList none).2 (by decide)⟩

/-- C2 counterexample: with credential `ABAB` (mask `AB********AB`) and
underlying network error text `ABABAB`, the redacted message is
`AB********ABAB`, in which the raw credential `ABAB` still occurs — the
replacement recombines with the trailing text into a fresh occurrence. -/
theorem transport_error_can_leak_credential :
    postOutcome (clientInit "ABAB".toList none) (.netError "ABABAB".toList)
      = .error (.http "AB********ABAB".toList)
    ∧ occursIn "ABAB".toList "AB********ABAB".toList = true := by
  have h : pyReplace "ABABAB".toList "ABAB".toList (maskKey "ABAB".toList)
      = "AB********ABAB".toList := by decide
  refine ⟨?_, by decide⟩
  show Except.error (PostError.http
        (pyReplace "ABABAB".toList "ABAB".toList (maskKey "ABAB".toList)))
      = .error (.http "AB********ABAB".toList)
  rw [h]

/-- C3: `_jsonify_params` keeps exactly the input key list (same keys, same
order, same count), sends every structured value (list, tuple or dict) to its
`json.dumps` text, and passes every scalar entry through unchanged. It is a
total function of the decoded parameter mapping: normalization never raises. -/
theorem jsonify_params_spec (dumps : JVal → String) (params : JObj) :
    (jsonify_params dumps params).map Prod.fst = params.map Prod.fst
    ∧ (jsonify_params dumps params).length = params.length
    ∧ (∀ k v, (k, v) ∈ params →
        (if isStructured v then (k, JVal.str (dumps v)) else (k, v))
          ∈ jsonify_params dumps params) := by
  refine ⟨?_, by simp [jsonify_params], ?_⟩
  · unfold jsonify_params
    rw [List.map_map]
    apply List.map_congr_left
    intro kv _
    by_cases h : isStructured kv.2 <;> simp [h]
  · intro k v hmem
    have hmap := List.mem_map_of_mem
      (fun kv => if isStructured kv.2 then (kv.1, JVal.str (dumps kv.2)) else kv) hmem
    by_cases h : isStructured v <;> simpa [jsonify_params, h] using hmap

/-- Witness for `jsonify_params_spec`: the source's own example — a list value
under `sender` becomes its JSON text, a scalar `message` survives unchanged. -/
theorem jsonify_params_spec_witness :
    ("sender", JVal.str "[\"3000\", \"3001\"]")
      ∈ jsonify_params pyJsonDumps
          [("sender", .arr [.str "3000", .str "3001"]), ("message", .str "hi")]
    ∧ ("message", JVal.str "hi")
      ∈ jsonify_params pyJsonDumps
          [("sender", .arr [.str "3000", .str "3001"]), ("message", .str "hi")] :=
  ⟨(jsonify_params_spec pyJsonDumps _).2.2 "sender" (.arr [.str "3000", .str "3001"])
      (by simp),
   (jsonify_params_spec pyJsonDumps _).2.2 "message" (.str "hi") (by simp)⟩

set_option maxRecDepth 4000 in
/-- C4: `send_bulk_sms_chunked` splits the receptor list with `_chunk` at
size `max(1, chunk_size)` into consecutive groups that concatenate back to
the input (so the groups are consecutive and in order), each of at most
`max(1, chunk_size)` elements, issues one underlying send per group and
returns the per-group results in group order; 450 receptors with chunk size
200 yield exactly the group sizes 200, 200, 50. -/
theorem send_bulk_chunked_spec {R : Type} (sendOne : List String → R)
    (receptors : List String) (chunk_size : Int) :
    send_bulk_sms_chunked sendOne receptors chunk_size
      = (chunk receptors (max 1 chunk_size).toNat).map sendOne
    ∧ (chunk receptors (max 1 chunk_size).toNat).flatten = receptors
    ∧ (∀ g ∈ chunk receptors (max 1 chunk_size).toNat,
        g.length ≤ (max 1 chunk_size).toNat)
    ∧ (chunk (List.replicate 450 "r") 200).map List.length = [200, 200, 50] := by
  have hsize : 1 ≤ (max 1 chunk_size).toNat := by
    have h1 : (1 : Int) ≤ max 1 chunk_size := le_max_left 1 chunk_size
    omega
  exact ⟨rfl,
    chunkAux_flatten _ hsize receptors.length receptors le_rfl,
    chunkAux_length_le _ hsize receptors.length receptors le_rfl,
    by decide⟩

/-- Witness for `send_bulk_chunked_spec`: three receptors at chunk size 2
give groups `[a, b]` and `[c]`, and the first group's size bound is obtained
from the theorem. -/
theorem send_bulk_chunked_spec_witness :
    send_bulk_sms_chunked List.length ["a", "b", "c"] 2 = [2, 1]
    ∧ (["a", "b"] : List String).length ≤ (max 1 (2 : Int)).toNat :=
  ⟨by decide,
   (send_bulk_chunked_spec List.length ["a", "b", "c"] 2).2.2.1
      ["a", "b"] (by decide)⟩

/-- C5: for every decoded envelope (with a well-formed `return` field) whose
`return.status` is the integer 200, the decoder returns the envelope's
`entries` value as the call's result, with an absent `entries` surfacing as
Python `None` (JSON null), exactly what `payload.get("entries")` yields. -/
theorem decode_success_returns_entries (payload : JObj)
    ( _hwf : returnFieldOk payload = true)
    (hst : envStatus payload = .num 200) :
    decodeEnvelope payload = .ok (envEntries payload) := by
  unfold decodeEnvelope
  rw [if_pos (by rw [hst]; rfl)]

/-- Witness for `decode_success_returns_entries`: the spec's example envelope
returns its entries list, and a status-200 envelope without `entries`
returns null. -/
theorem decode_success_returns_entries_witness :
    decodeEnvelope
        [("return", .obj [("status", .num 200), ("message", .str "")]),
         ("entries", .arr [.obj [("a", .num 1)]])]
      = .ok (.arr [.obj [("a", .num 1)]])
    ∧ decodeEnvelope [("return", .obj [("status", .num 200), ("message", .str "")])]
      = .ok .null :=
  ⟨decode_success_returns_entries _ rfl rfl,
   decode_success_returns_entries _ rfl rfl⟩

/-- C6: a response body that fails UTF-8/JSON decoding surfaces as the
transport-level `HTTPException` carrying the underlying parse error text,
and never as the API-level `APIException`. -/
theorem parse_failure_raises_transport_error (c : Client) (perr : List Char) :
    postOutcome c (.response (.error perr)) = .error (.http perr)
    ∧ ∀ (st msg : JVal),
        postOutcome c (.response (.error perr)) ≠ .error (.api st msg) := by
  refine ⟨rfl, ?_⟩
  intro st msg h
  rw [show postOutcome c (.response (.error perr)) = .error (.http perr) from rfl] at h
  injection h with h2
  exact PostError.noConfusion h2

/-- Witness for `parse_failure_raises_transport_error`: a concrete parse
error text is carried through, and in particular is not an API error. -/
theorem parse_failure_raises_transport_error_witness :
    postOutcome (clientInit "k".toList none)
        (.response (.error "Expecting value: line 1 column 1 (char 0)".toList))
      = .error (.http "Expecting value: line 1 column 1 (char 0)".toList)
    ∧ postOutcome (clientInit "k".toList none)
        (.response (.error "Expecting value: line 1 column 1 (char 0)".toList))
      ≠ .error (.api .null (.str "")) :=
  ⟨(parse_failure_raises_transport_error _ _).1,
   (parse_failure_raises_transport_error _ _).2 .null (.str "")⟩

/-- C7: the masked credential of a key of length at least 4 is its first two
characters, eight asterisks, then its last two characters (`ABCDEFGH` maps to
`AB********GH`); a key shorter than 4 characters masks to the constant
placeholder `********`; and after `rotate_api_key` the stored mask is exactly
the mask of the new credential, identical to constructing a fresh client. -/
theorem masked_credential_spec (key newKey : List Char) (t : Option Int) (c : Client) :
    (4 ≤ key.length →
      (clientInit key t).apikey_mask
        = key.take 2 ++ "********".toList ++ key.drop (key.length - 2))
    ∧ (key.length < 4 → (clientInit key t).apikey_mask = "********".toList)
    ∧ (rotate_api_key c newKey).apikey_mask = maskKey newKey
    ∧ (rotate_api_key c newKey).apikey_mask = (clientInit newKey t).apikey_mask
    ∧ maskKey "ABCDEFGH".toList = "AB********GH".toList
    ∧ maskKey "AB".toList = "********".toList := by
  refine ⟨?_, ?_, rfl, rfl, by decide, by decide⟩
  · intro h
    show maskKey key = _
    unfold maskKey
    rw [if_pos h]
  · intro h
    show maskKey key = _
    unfold maskKey
    rw [if_neg (by omega)]

/-- Witness for `masked_credential_spec`: the two concrete keys of the claim,
before and after a rotation. -/
theorem masked_credential_spec_witness :
    (clientInit "ABCDEFGH".toList none).apikey_mask = "AB********GH".toList
    ∧ (clientInit "AB".toList none).apikey_mask = "********".toList
    ∧ (rotate_api_key (clientInit "ABCDEFGH".toList none) "WXYZ9876".toList).apikey_mask
      = (clientInit "WXYZ9876".toList none).apikey_mask := by
  refine ⟨?_, ?_, ?_⟩
  · rw [(masked_credential_spec "ABCDEFGH".toList [] none
          (clientInit [] none)).1 (by decide)]
    decide
  · exact (masked_credential_spec "AB".toList [] none
      (clientInit [] none)).2.1 (by decide)
  · exact (masked_credential_spec [] "WXYZ9876".toList none
      (clientInit "ABCDEFGH".toList none)).2.2.2.1

/-- C8: `healthcheck` is total over the outcomes of its two probes — every
combination of probe outcomes yields one of the four dicts of the two
reachability booleans, never an exception — and when the account probe raises
(any error) while the outbox probe succeeds it returns
`{"account": False, "sms": True}`. -/
theorem healthcheck_never_raises (a s : Except PostError JVal) :
    (healthcheck a s = [("account", false), ("sms", false)]
     ∨ healthcheck a s = [("account", false), ("sms", true)]
     ∨ healthcheck a s = [("account", true), ("sms", false)]
     ∨ healthcheck a s = [("account", true), ("sms", true)])
    ∧ (∀ (e : PostError) (v : JVal),
        healthcheck (.error e) (.ok v) = [("account", false), ("sms", true)]) := by
  constructor
  · cases a <;> cases s <;>
      first
        | exact Or.inl rfl
        | exact Or.inr (Or.inl rfl)
        | exact Or.inr (Or.inr (Or.inl rfl))
        | exact Or.inr (Or.inr (Or.inr rfl))
  · intro e v
    rfl

/-- Witness for `healthcheck_never_raises`: a failing account probe together
with a succeeding outbox probe. -/
theorem healthcheck_never_raises_witness :
    healthcheck (.error (.http "connection refused".toList)) (.ok (.arr []))
      = [("account", false), ("sms", true)] :=
  (healthcheck_never_raises (.error (.http "connection refused".toList))
    (.ok (.arr []))).2 (.http "connection refused".toList) (.arr [])

/-- C9: constructing the client with timeout 0 — or any falsy timeout, i.e.
`None` or `0` — stores `DEFAULT_TIMEOUT = 10`, producing the very same client
state as passing no timeout; no construction-time argument can yield a stored
timeout of 0. -/
theorem zero_timeout_defaults (key : List Char) (t : Option Int) :
    clientInit key (some 0) = clientInit key none
    ∧ (clientInit key (some 0)).timeout = DEFAULT_TIMEOUT
    ∧ ((t = none ∨ t = some 0) → clientInit key t = clientInit key none)
    ∧ (clientInit key t).timeout ≠ 0 := by
  refine ⟨rfl, rfl, ?_, ?_⟩
  · rintro (rfl | rfl) <;> rfl
  · cases t with
    | none =>
      show pyOrDefaultTimeout none ≠ 0
      decide
    | some v =>
      show (if v = 0 then DEFAULT_TIMEOUT else v) ≠ 0
      by_cases hv : v = 0
      · rw [if_pos hv]
        decide
      · rw [if_neg hv]
        exact hv

/-- Witness for `zero_timeout_defaults`: a concrete key with timeout 0. -/
theorem zero_timeout_defaults_witness :
    clientInit "APIKEY".toList (some 0) = clientInit "APIKEY".toList none
    ∧ (clientInit "APIKEY".toList (some 0)).timeout ≠ 0 :=
  ⟨(zero_timeout_defaults "APIKEY".toList (some 0)).2.2.1 (Or.inr rfl),
   (zero_timeout_defaults "APIKEY".toList (some 0)).2.2.2⟩

/-- C10: a `return.status` holding the string `"200"` — or any string at all —
is not the success sentinel: the comparison is strict equality against the
integer 200 with no coercion, so the decoder raises `APIException` carrying
that string as the status. -/
theorem string_status_not_success (payload : JObj) (s : String)
    ( _hwf : returnFieldOk payload = true)
    (hst : envStatus payload = .str s) :
    statusEq200 (.str s) = false
    ∧ decodeEnvelope payload = .error (.api (.str s) (envMessage payload)) := by
  refine ⟨rfl, ?_⟩
  unfold decodeEnvelope
  rw [hst, if_neg (fun hc => Bool.noConfusion hc)]

/-- Witness for `string_status_not_success`: the envelope whose status is the
string `"200"` produces an API error carrying that string. -/
theorem string_status_not_success_witness :
    statusEq200 (.str "200") = false
    ∧ decodeEnvelope
        [("return", .obj [("status", .str "200"), ("message", .str "m")])]
      = .error (.api (.str "200") (.str "m")) :=
  string_status_not_success
    [("return", .obj [("status", .str "200"), ("message", .str "m")])]
    "200" rfl rfl

end Kavenegar
